import Mathlib

/-!
Shallow embedding of the NFT e-ticketing backend's ticket lifecycle logic
(routes `POST /api/tickets/verify`, `POST /api/events/:eventId/purchase-initiate`,
`POST /api/tickets/mint-success`, `POST /api/tickets/transfer-update` and the
`verifyTicketOwnershipOnChain` service), together with proofs of the spec's
claims about them.

The relational store (Supabase tables `events`, `tickets`, `transactions`) is
modelled as lists of rows; `.single()` equality lookups become `List.find?`,
which agrees with the database semantics on well-formed stores (unique natural
keys, see `WellFormed`).  Timestamps (`new Date().toISOString()`) are passed in
as an abstract `now` value.  The live ledger is modelled as an environment
function from mint address to a lookup outcome, and the external QR rendering
library behind `src/utils/qrCodeGenerator.js` as an environment function from
the encoded datum to a rendered data URL or a thrown error.
-/

namespace ETicket

/-- One row of the `tickets` table, with the columns the routes read or write. -/
structure Ticket where
  ticket_id : Nat
  event_id : String
  nft_mint_address : String
  owner_wallet_address : String
  seat_info : String
  status : String
  is_used : Bool
  original_purchase_date : Nat
  original_purchaser_wallet_address : String
  qr_code_data : String
  qr_code_url : String
  last_transfer_date : Option Nat
  updated_at : Option Nat
deriving Repr, DecidableEq

/-- One row of the `events` table, with the columns the routes read or write.
Counters are `Int` because the JavaScript arithmetic on them is unchecked. -/
structure Event where
  event_id : String
  name : String
  total_tickets : Int
  available_tickets : Int
  price_sol : Int
  candy_machine_id : String
  is_active : Bool
deriving Repr, DecidableEq

/-- One row of the `transactions` table. -/
structure Txn where
  transaction_id : Nat
  event_id : String
  payment_method : String
  amount : Int
  currency : String
  status : String
  solana_transaction_signature : Option String
  ticket_id : Option Nat
deriving Repr, DecidableEq

/-- The relational store: the three tables plus counters standing in for the
database's generated row identifiers. -/
structure Store where
  events : List Event
  tickets : List Ticket
  transactions : List Txn
  nextTicketId : Nat
  nextTxnId : Nat
deriving Repr, DecidableEq

/-- `.eq('nft_mint_address', m).single()` over a ticket list. -/
def findTicketIn (l : List Ticket) (m : String) : Option Ticket :=
  l.find? (fun t => t.nft_mint_address == m)

/-- `.eq('event_id', eid).single()` over an event list. -/
def findEventIn (l : List Event) (eid : String) : Option Event :=
  l.find? (fun e => e.event_id == eid)

def findTicketByMint (s : Store) (m : String) : Option Ticket :=
  findTicketIn s.tickets m

def findEventById (s : Store) (eid : String) : Option Event :=
  findEventIn s.events eid

/-- Database well-formedness: the natural keys are unique (`nft_mint_address`
is the tickets table's deduplication key per the data model, and the row
identifiers are primary keys).  On such stores `List.find?` coincides with the
database's `.single()` lookup. -/
def WellFormed (s : Store) : Prop :=
  s.tickets.Pairwise (fun a b => a.nft_mint_address ≠ b.nft_mint_address) ∧
  s.tickets.Pairwise (fun a b => a.ticket_id ≠ b.ticket_id) ∧
  s.events.Pairwise (fun a b => a.event_id ≠ b.event_id) ∧
  s.transactions.Pairwise (fun a b => a.transaction_id ≠ b.transaction_id)

instance (s : Store) : Decidable (WellFormed s) := by
  unfold WellFormed; infer_instance

/-- Outcome of the live ledger lookup `metaplex.nfts().findNftByMint` as seen
by `verifyTicketOwnershipOnChain`: an owner was found, the asset or its owner
is missing, or the call threw. -/
inductive ChainLookup where
  | onChainOwner (addr : String)
  | assetMissing
  | lookupFailed
deriving Repr, DecidableEq

/-- The ledger environment: current lookup outcome per mint address. -/
def ChainEnv : Type := String → ChainLookup

/-- `verifyTicketOwnershipOnChain(nftMintAddress, expectedOwner)`: true iff the
asset is found and its owner equals the expected wallet; a missing asset or
missing owner yields false, and the catch-all returns false on any error. -/
def verifyTicketOwnershipOnChain (chain : ChainEnv) (nftMintAddress expectedOwner : String) :
    Bool :=
  match chain nftMintAddress with
  | .onChainOwner actual => actual == expectedOwner
  | .assetMissing => false
  | .lookupFailed => false

/-- Outcome of the external QR library call `QRCode.toDataURL` (the `qrcode`
npm package, outside this repository): a rendered data URL, or a thrown
error. -/
inductive QrRender where
  | dataUrl (url : String)
  | renderError
deriving Repr, DecidableEq

/-- The QR library environment: the render outcome per encoded datum. -/
def QrEnv : Type := String → QrRender

/-- `generateQrCodeDataUrl(data)` from `src/utils/qrCodeGenerator.js`: awaits
`QRCode.toDataURL` on the data with high error correction and returns the data
URL; a library error is caught, logged and re-thrown as
`Error: Failed to generate QR code.` — the throw is modelled as `Except.error`
carrying that message. -/
def generateQrCodeDataUrl (qr : QrEnv) (data : String) : Except String String :=
  match qr data with
  | .dataUrl url => .ok url
  | .renderError => .error "Failed to generate QR code."

/-- `ownerWalletAddress || ticket.owner_wallet_address`: the caller-asserted
owner when supplied and truthy, else the stored owner. -/
def addressToVerify (asserted : Option String) (t : Ticket) : String :=
  match asserted with
  | some a => if a == "" then t.owner_wallet_address else a
  | none => t.owner_wallet_address

/-- Responses of `POST /api/tickets/verify`. -/
inductive VerifyResult where
  | missingMint
  | ticketNotFound
  | alreadyUsed
  | missingOwnerAddress
  | ownershipMismatch
  | verified (ticket_id : Nat)
deriving Repr, DecidableEq

/-- HTTP status code of each verify response, as sent by the handler. -/
def VerifyResult.httpStatus : VerifyResult → Nat
  | .missingMint => 400
  | .ticketNotFound => 404
  | .alreadyUsed => 409
  | .missingOwnerAddress => 500
  | .ownershipMismatch => 403
  | .verified _ => 200

/-- The `POST /api/tickets/verify` handler (the spec's `verifyAndConsume`):
load the ticket by mint address, 404 if absent, 409 if already used, determine
the address to check, run the live on-chain ownership check, 403 on mismatch,
else mark the ticket used and return 200 with its identifier. -/
def verifyAndConsume (chain : ChainEnv) (now : Nat) (s : Store)
    (nftMintAddress : String) (ownerWalletAddress : Option String) :
    VerifyResult × Store :=
  if nftMintAddress == "" then (.missingMint, s)
  else
    match findTicketByMint s nftMintAddress with
    | none => (.ticketNotFound, s)
    | some ticket =>
      if ticket.is_used then (.alreadyUsed, s)
      else
        if addressToVerify ownerWalletAddress ticket == "" then (.missingOwnerAddress, s)
        else if verifyTicketOwnershipOnChain chain nftMintAddress
            (addressToVerify ownerWalletAddress ticket) then
          (.verified ticket.ticket_id,
            { s with tickets := s.tickets.map (fun t =>
                if t.ticket_id == ticket.ticket_id then
                  { t with is_used := true, status := "used", updated_at := some now }
                else t) })
        else (.ownershipMismatch, s)

/-- Responses of `POST /api/events/:eventId/purchase-initiate`. -/
inductive PurchaseResult where
  | missingWallet
  | invalidQuantity
  | eventNotFound
  | candyMachineNotConfigured
  | notEnoughTickets
  | initiated (candyMachineId : String) (priceSol : Int) (quantity : Int)
      (transactionId : Nat)
deriving Repr, DecidableEq

/-- The `POST /api/events/:eventId/purchase-initiate` handler (the spec's
`initiatePurchase`): validate the wallet and quantity, load the event, check
the issuance machine is configured and enough tickets remain, then create one
`pending` transaction for `price_sol * quantity` and return the issuance
machine identifier besides the transaction id. -/
def initiatePurchase (s : Store) (eventId userWalletAddress paymentMethod : String)
    (quantity : Int) : PurchaseResult × Store :=
  if userWalletAddress == "" then (.missingWallet, s)
  else if quantity ≤ 0 then (.invalidQuantity, s)
  else
    match findEventById s eventId with
    | none => (.eventNotFound, s)
    | some event =>
      if event.candy_machine_id == "" then (.candyMachineNotConfigured, s)
      else if event.available_tickets < quantity then (.notEnoughTickets, s)
      else
        let newTxn : Txn :=
          { transaction_id := s.nextTxnId
            event_id := eventId
            payment_method := paymentMethod
            amount := event.price_sol * quantity
            currency := "SOL"
            status := "pending"
            solana_transaction_signature := none
            ticket_id := none }
        (.initiated event.candy_machine_id event.price_sol quantity newTxn.transaction_id,
          { s with transactions := s.transactions ++ [newTxn],
                   nextTxnId := s.nextTxnId + 1 })

/-- Responses of `POST /api/tickets/mint-success`. -/
inductive MintResult where
  | missingFields
  | alreadyProcessed
  | internalError
  | eventNotFound
  | recorded (ticket : Ticket)
deriving Repr, DecidableEq

/-- The Ticket row inserted by the mint-success handler: status `purchased`,
seat label `Ticket #(total_tickets - available_tickets + 1)` from the event
counters as read at the call, QR data equal to the mint address, QR image URL
as rendered by `generateQrCodeDataUrl`. -/
def mintTicket (now : Nat) (s : Store)
    (eventId nftMintAddress ownerWalletAddress qrCodeUrl : String)
    (event : Event) : Ticket :=
  { ticket_id := s.nextTicketId
    event_id := eventId
    nft_mint_address := nftMintAddress
    owner_wallet_address := ownerWalletAddress
    seat_info := "Ticket #" ++ toString (event.total_tickets - event.available_tickets + 1)
    status := "purchased"
    is_used := false
    original_purchase_date := now
    original_purchaser_wallet_address := ownerWalletAddress
    qr_code_data := nftMintAddress
    qr_code_url := qrCodeUrl
    last_transfer_date := none
    updated_at := none }

/-- The `POST /api/tickets/mint-success` handler (the spec's `recordMint`),
with two flags modelling the store operations whose failure the handler only
logs: `decrementFails` makes the `available_tickets` update fail (skipped, and
the handler still answers 200), `txnUpdateFails` likewise for the transaction
status update.  Steps, in source order: required-field validation; idempotent
skip when a ticket already exists for the mint address; QR data URL rendering,
whose throw reaches the outer catch (500, nothing mutated); event load (404
when absent); ticket insert with sequential seat label; counter decrement;
optional transaction update. -/
def recordMintAux (decrementFails txnUpdateFails : Bool) (qr : QrEnv) (now : Nat)
    (s : Store) (eventId nftMintAddress ownerWalletAddress solanaTxSig : String)
    (transactionId : Option Nat) : MintResult × Store :=
  if eventId == "" || nftMintAddress == "" || ownerWalletAddress == "" ||
      solanaTxSig == "" then
    (.missingFields, s)
  else
    match findTicketByMint s nftMintAddress with
    | some _ => (.alreadyProcessed, s)
    | none =>
      match generateQrCodeDataUrl qr nftMintAddress with
      | .error _ => (.internalError, s)
      | .ok qrCodeUrl =>
        match findEventById s eventId with
        | none => (.eventNotFound, s)
        | some event =>
          let newTicket : Ticket :=
            mintTicket now s eventId nftMintAddress ownerWalletAddress qrCodeUrl event
          let s1 := { s with tickets := s.tickets ++ [newTicket],
                             nextTicketId := s.nextTicketId + 1 }
          let s2 :=
            if decrementFails then s1
            else { s1 with events := s1.events.map (fun e =>
                    if e.event_id == eventId then
                      { e with available_tickets := event.available_tickets - 1 }
                    else e) }
          let s3 :=
            match transactionId with
            | none => s2
            | some tid =>
              if txnUpdateFails then s2
              else { s2 with transactions := s2.transactions.map (fun tr =>
                      if tr.transaction_id == tid then
                        { tr with status := "successful",
                                  solana_transaction_signature := some solanaTxSig,
                                  ticket_id := some newTicket.ticket_id }
                      else tr) }
          (.recorded newTicket, s3)

/-- `recordMint` with all store operations succeeding. -/
def recordMint (qr : QrEnv) (now : Nat) (s : Store)
    (eventId nftMintAddress ownerWalletAddress solanaTxSig : String)
    (transactionId : Option Nat) : MintResult × Store :=
  recordMintAux false false qr now s eventId nftMintAddress ownerWalletAddress
    solanaTxSig transactionId

/-- Responses of `POST /api/tickets/transfer-update`. -/
inductive TransferResult where
  | missingFields
  | ticketNotFound
  | alreadyUpToDate
  | ownerUpdated (ticket_id : Nat)
deriving Repr, DecidableEq

/-- The `POST /api/tickets/transfer-update` handler (the spec's
`recordTransfer`): load the ticket by mint address (404 when absent), return
200 with no change when the stored owner already equals the new owner, else
update owner, status `transferred` and the last-transfer timestamp. -/
def recordTransfer (now : Nat) (s : Store)
    (nftMintAddress newOwnerWalletAddress solanaTxSig : String) :
    TransferResult × Store :=
  if nftMintAddress == "" || newOwnerWalletAddress == "" || solanaTxSig == "" then
    (.missingFields, s)
  else
    match findTicketByMint s nftMintAddress with
    | none => (.ticketNotFound, s)
    | some ticket =>
      if ticket.owner_wallet_address == newOwnerWalletAddress then
        (.alreadyUpToDate, s)
      else
        (.ownerUpdated ticket.ticket_id,
          { s with tickets := s.tickets.map (fun t =>
              if t.ticket_id == ticket.ticket_id then
                { t with owner_wallet_address := newOwnerWalletAddress,
                         status := "transferred",
                         last_transfer_date := some now }
              else t) })

/-- One request against the store: the three mutating ticket operations. -/
inductive Op where
  | mintSuccess (eventId nftMintAddress ownerWalletAddress solanaTxSig : String)
      (transactionId : Option Nat)
  | transferUpdate (nftMintAddress newOwnerWalletAddress solanaTxSig : String)
  | verifyEntry (nftMintAddress : String) (ownerWalletAddress : Option String)

/-- A request together with the ledger state, QR library state and clock at
the time it runs. -/
structure StepInput where
  op : Op
  chain : ChainEnv
  qr : QrEnv
  now : Nat

/-- State transition of one request (the store component of the handler). -/
def applyStep (s : Store) (i : StepInput) : Store :=
  match i.op with
  | .mintSuccess eid m o sig tid => (recordMint i.qr i.now s eid m o sig tid).2
  | .transferUpdate m o sig => (recordTransfer i.now s m o sig).2
  | .verifyEntry m o => (verifyAndConsume i.chain i.now s m o).2

/-- Serialized execution of a sequence of requests. -/
def runSteps (s : Store) (l : List StepInput) : Store :=
  l.foldl applyStep s

/-- The arguments of one `recordMint` call, with the QR library state at the
time it runs. -/
structure MintCall where
  eventId : String
  nftMintAddress : String
  ownerWalletAddress : String
  solanaTxSig : String
  transactionId : Option Nat
  qr : QrEnv
  now : Nat

/-- State transition of one `recordMint` call. -/
def applyMint (s : Store) (c : MintCall) : Store :=
  (recordMint c.qr c.now s c.eventId c.nftMintAddress c.ownerWalletAddress
    c.solanaTxSig c.transactionId).2

/-- Serialized execution of a sequence of `recordMint` calls. -/
def runMints (s : Store) (l : List MintCall) : Store :=
  l.foldl applyMint s

/-- Number of Ticket rows in a list bound to event `eid`. -/
def ticketCountL (eid : String) (l : List Ticket) : Int :=
  ((l.filter (fun t => t.event_id == eid)).length : Int)

/-- Number of Ticket rows bound to event `eid`. -/
def eventTicketCount (eid : String) (s : Store) : Int :=
  ticketCountL eid s.tickets

/-- Number of Ticket rows for a given mint address. -/
def mintRowCount (m : String) (s : Store) : Nat :=
  (s.tickets.filter (fun t => t.nft_mint_address == m)).length

theorem findTicketIn_append_left {l₁ : List Ticket} (l₂ : List Ticket) {m : String}
    {t : Ticket} (h : findTicketIn l₁ m = some t) :
    findTicketIn (l₁ ++ l₂) m = some t := by
  unfold findTicketIn at *
  rw [List.find?_append, h]
  rfl

theorem findTicketIn_append_right {l₁ : List Ticket} (l₂ : List Ticket) {m : String}
    (h : findTicketIn l₁ m = none) :
    findTicketIn (l₁ ++ l₂) m = findTicketIn l₂ m := by
  unfold findTicketIn at *
  rw [List.find?_append, h]
  rfl

theorem findTicketIn_map (f : Ticket → Ticket)
    (hf : ∀ t, (f t).nft_mint_address = t.nft_mint_address)
    (l : List Ticket) (m : String) :
    findTicketIn (l.map f) m = (findTicketIn l m).map f := by
  have hp : ((fun t : Ticket => t.nft_mint_address == m) ∘ f)
      = (fun t : Ticket => t.nft_mint_address == m) := by
    funext t
    simp [Function.comp, hf t]
  unfold findTicketIn
  rw [List.find?_map, hp]

theorem findEventIn_map (f : Event → Event)
    (hf : ∀ e, (f e).event_id = e.event_id)
    (l : List Event) (eid : String) :
    findEventIn (l.map f) eid = (findEventIn l eid).map f := by
  have hp : ((fun e : Event => e.event_id == eid) ∘ f)
      = (fun e : Event => e.event_id == eid) := by
    funext e
    simp [Function.comp, hf e]
  unfold findEventIn
  rw [List.find?_map, hp]

theorem mintValidation_false {eid m o sig : String}
    (h1 : eid ≠ "") (h2 : m ≠ "") (h3 : o ≠ "") (h4 : sig ≠ "") :
    (eid == "" || m == "" || o == "" || sig == "") = false := by
  simp [h1, h2, h3, h4]

theorem transferValidation_false {m o sig : String}
    (h1 : m ≠ "") (h2 : o ≠ "") (h3 : sig ≠ "") :
    (m == "" || o == "" || sig == "") = false := by
  simp [h1, h2, h3]

theorem recordMintAux_dup (d f : Bool) (qr : QrEnv) (now : Nat) (s : Store)
    {eid m o sig : String} (tid : Option Nat) {t : Ticket}
    (h1 : eid ≠ "") (h2 : m ≠ "") (h3 : o ≠ "") (h4 : sig ≠ "")
    (hdup : findTicketByMint s m = some t) :
    recordMintAux d f qr now s eid m o sig tid = (.alreadyProcessed, s) := by
  unfold recordMintAux
  rw [mintValidation_false h1 h2 h3 h4]
  simp [hdup]

theorem recordMintAux_qrFailure (d f : Bool) (qr : QrEnv) (now : Nat) (s : Store)
    {eid m o sig : String} (tid : Option Nat) {e0 : String}
    (h1 : eid ≠ "") (h2 : m ≠ "") (h3 : o ≠ "") (h4 : sig ≠ "")
    (hdup : findTicketByMint s m = none)
    (hqr : generateQrCodeDataUrl qr m = .error e0) :
    recordMintAux d f qr now s eid m o sig tid = (.internalError, s) := by
  unfold recordMintAux
  rw [mintValidation_false h1 h2 h3 h4]
  simp [hdup, hqr]

theorem recordMintAux_noEvent (d f : Bool) (qr : QrEnv) (now : Nat) (s : Store)
    {eid m o sig : String} (tid : Option Nat) {u : String}
    (h1 : eid ≠ "") (h2 : m ≠ "") (h3 : o ≠ "") (h4 : sig ≠ "")
    (hdup : findTicketByMint s m = none)
    (hqr : generateQrCodeDataUrl qr m = .ok u)
    (hev : findEventById s eid = none) :
    recordMintAux d f qr now s eid m o sig tid = (.eventNotFound, s) := by
  unfold recordMintAux
  rw [mintValidation_false h1 h2 h3 h4]
  simp [hdup, hqr, hev]

theorem recordMintAux_insert (d f : Bool) (qr : QrEnv) (now : Nat) (s : Store)
    {eid m o sig : String} (tid : Option Nat) {u : String} {ev : Event}
    (h1 : eid ≠ "") (h2 : m ≠ "") (h3 : o ≠ "") (h4 : sig ≠ "")
    (hdup : findTicketByMint s m = none)
    (hqr : generateQrCodeDataUrl qr m = .ok u)
    (hev : findEventById s eid = some ev) :
    recordMintAux d f qr now s eid m o sig tid =
      (.recorded (mintTicket now s eid m o u ev),
        { events :=
            if d then s.events
            else s.events.map (fun e =>
              if e.event_id == eid then
                { e with available_tickets := ev.available_tickets - 1 }
              else e)
          tickets := s.tickets ++ [mintTicket now s eid m o u ev]
          transactions :=
            match tid with
            | none => s.transactions
            | some tid0 =>
              if f then s.transactions
              else s.transactions.map (fun tr =>
                if tr.transaction_id == tid0 then
                  { tr with status := "successful",
                            solana_transaction_signature := some sig,
                            ticket_id := some s.nextTicketId }
                else tr)
          nextTicketId := s.nextTicketId + 1
          nextTxnId := s.nextTxnId }) := by
  unfold recordMintAux
  rw [mintValidation_false h1 h2 h3 h4]
  simp only [hdup, hqr, hev, Bool.false_eq_true, if_false]
  cases d <;> cases f <;> cases tid <;> rfl

theorem recordTransfer_notFound (now : Nat) (s : Store) {m o sig : String}
    (h1 : m ≠ "") (h2 : o ≠ "") (h3 : sig ≠ "")
    (hfind : findTicketByMint s m = none) :
    recordTransfer now s m o sig = (.ticketNotFound, s) := by
  unfold recordTransfer
  rw [transferValidation_false h1 h2 h3]
  simp [hfind]

theorem recordTransfer_upToDate (now : Nat) (s : Store) {m o sig : String}
    {t : Ticket} (h1 : m ≠ "") (h2 : o ≠ "") (h3 : sig ≠ "")
    (hfind : findTicketByMint s m = some t)
    (howner : t.owner_wallet_address = o) :
    recordTransfer now s m o sig = (.alreadyUpToDate, s) := by
  unfold recordTransfer
  rw [transferValidation_false h1 h2 h3]
  simp [hfind, howner]

theorem recordTransfer_update (now : Nat) (s : Store) {m o sig : String}
    {t : Ticket} (h1 : m ≠ "") (h2 : o ≠ "") (h3 : sig ≠ "")
    (hfind : findTicketByMint s m = some t)
    (howner : t.owner_wallet_address ≠ o) :
    recordTransfer now s m o sig =
      (.ownerUpdated t.ticket_id,
        { s with tickets := s.tickets.map (fun tk =>
            if tk.ticket_id == t.ticket_id then
              { tk with owner_wallet_address := o,
                        status := "transferred",
                        last_transfer_date := some now }
            else tk) }) := by
  unfold recordTransfer
  rw [transferValidation_false h1 h2 h3]
  simp [hfind, howner]

theorem verify_notFound (chain : ChainEnv) (now : Nat) (s : Store)
    {m : String} (a : Option String) (hm : m ≠ "")
    (hfind : findTicketByMint s m = none) :
    verifyAndConsume chain now s m a = (.ticketNotFound, s) := by
  unfold verifyAndConsume
  simp [hm, hfind]

theorem verify_used (chain : ChainEnv) (now : Nat) (s : Store)
    {m : String} (a : Option String) {t : Ticket} (hm : m ≠ "")
    (hfind : findTicketByMint s m = some t) (hu : t.is_used = true) :
    verifyAndConsume chain now s m a = (.alreadyUsed, s) := by
  unfold verifyAndConsume
  simp [hm, hfind, hu]

theorem verify_mismatch (chain : ChainEnv) (now : Nat) (s : Store)
    {m : String} (a : Option String) {t : Ticket} (hm : m ≠ "")
    (hfind : findTicketByMint s m = some t) (hu : t.is_used = false)
    (haddr : addressToVerify a t ≠ "")
    (hchain : verifyTicketOwnershipOnChain chain m (addressToVerify a t) = false) :
    verifyAndConsume chain now s m a = (.ownershipMismatch, s) := by
  unfold verifyAndConsume
  simp [hm, hfind, hu, haddr, hchain]

theorem verify_ok (chain : ChainEnv) (now : Nat) (s : Store)
    {m : String} (a : Option String) {t : Ticket} (hm : m ≠ "")
    (hfind : findTicketByMint s m = some t) (hu : t.is_used = false)
    (haddr : addressToVerify a t ≠ "")
    (hchain : verifyTicketOwnershipOnChain chain m (addressToVerify a t) = true) :
    verifyAndConsume chain now s m a =
      (.verified t.ticket_id,
        { s with tickets := s.tickets.map (fun tk =>
            if tk.ticket_id == t.ticket_id then
              { tk with is_used := true, status := "used", updated_at := some now }
            else tk) }) := by
  unfold verifyAndConsume
  simp [hm, hfind, hu, haddr, hchain]

theorem initiatePurchase_badQty (s : Store) (eid : String) {w : String}
    (pm : String) {q : Int} (hw : w ≠ "") (hq : q ≤ 0) :
    initiatePurchase s eid w pm q = (.invalidQuantity, s) := by
  unfold initiatePurchase
  simp [hw, hq]

theorem initiatePurchase_noEvent (s : Store) {eid : String} {w : String}
    (pm : String) {q : Int} (hw : w ≠ "") (hq : 0 < q)
    (hev : findEventById s eid = none) :
    initiatePurchase s eid w pm q = (.eventNotFound, s) := by
  unfold initiatePurchase
  simp [hw, not_le.mpr hq, hev]

theorem initiatePurchase_notEnough (s : Store) {eid : String} {w : String}
    (pm : String) {q : Int} {ev : Event} (hw : w ≠ "") (hq : 0 < q)
    (hev : findEventById s eid = some ev) (hcm : ev.candy_machine_id ≠ "")
    (hav : ev.available_tickets < q) :
    initiatePurchase s eid w pm q = (.notEnoughTickets, s) := by
  unfold initiatePurchase
  simp [hw, not_le.mpr hq, hev, hcm, hav]

theorem initiatePurchase_ok (s : Store) {eid : String} {w : String}
    (pm : String) {q : Int} {ev : Event} (hw : w ≠ "") (hq : 0 < q)
    (hev : findEventById s eid = some ev) (hcm : ev.candy_machine_id ≠ "")
    (hav : q ≤ ev.available_tickets) :
    initiatePurchase s eid w pm q =
      (.initiated ev.candy_machine_id ev.price_sol q s.nextTxnId,
        { s with
            transactions := s.transactions ++
              [{ transaction_id := s.nextTxnId
                 event_id := eid
                 payment_method := pm
                 amount := ev.price_sol * q
                 currency := "SOL"
                 status := "pending"
                 solana_transaction_signature := none
                 ticket_id := none }]
            nextTxnId := s.nextTxnId + 1 }) := by
  unfold initiatePurchase
  simp [hw, not_le.mpr hq, hev, hcm, not_lt.mpr hav]

theorem verify_missingOwner (chain : ChainEnv) (now : Nat) (s : Store)
    {m : String} (a : Option String) {t : Ticket} (hm : m ≠ "")
    (hfind : findTicketByMint s m = some t) (hu : t.is_used = false)
    (haddr : addressToVerify a t = "") :
    verifyAndConsume chain now s m a = (.missingOwnerAddress, s) := by
  unfold verifyAndConsume
  simp [hm, hfind, hu, haddr]

/-- A sample event used by the concrete witness theorems. -/
def wEvent : Event :=
  { event_id := "e1"
    name := "Concert"
    total_tickets := 3
    available_tickets := 3
    price_sol := 2
    candy_machine_id := "cm1"
    is_active := true }

/-- A sample store with one fresh event and no tickets. -/
def wStore : Store :=
  { events := [wEvent]
    tickets := []
    transactions := []
    nextTicketId := 0
    nextTxnId := 0 }

/-- C6: `initiatePurchase` rejects every quantity below 1 as invalid input,
rejects when fewer than `quantity` tickets are available, and otherwise
creates exactly one `pending` Transaction for `price_sol * quantity` and
returns the issuance-machine identifier and the Transaction id, mutating
nothing else — in particular it does not decrement `available_tickets`. -/
theorem initiatePurchase_contract (s : Store) (eid w pm : String) (q : Int)
    (hw : w ≠ "") :
    (q < 1 → initiatePurchase s eid w pm q = (.invalidQuantity, s)) ∧
    (∀ ev, findEventById s eid = some ev → ev.candy_machine_id ≠ "" → 1 ≤ q →
      (ev.available_tickets < q →
        initiatePurchase s eid w pm q = (.notEnoughTickets, s)) ∧
      (q ≤ ev.available_tickets →
        initiatePurchase s eid w pm q =
          (.initiated ev.candy_machine_id ev.price_sol q s.nextTxnId,
            { s with
                transactions := s.transactions ++
                  [{ transaction_id := s.nextTxnId
                     event_id := eid
                     payment_method := pm
                     amount := ev.price_sol * q
                     currency := "SOL"
                     status := "pending"
                     solana_transaction_signature := none
                     ticket_id := none }]
                nextTxnId := s.nextTxnId + 1 }))) := by
  refine ⟨fun hlt => initiatePurchase_badQty s eid pm hw (by omega),
    fun ev hev hcm hq1 =>
      ⟨fun hav => initiatePurchase_notEnough s pm hw (by omega) hev hcm hav,
       fun hav => initiatePurchase_ok s pm hw (by omega) hev hcm hav⟩⟩

/-- Witness for C6: a concrete purchase of two tickets against the sample
store succeeds and appends exactly the expected pending transaction. -/
theorem initiatePurchase_contract_witness :
    initiatePurchase wStore "e1" "buyerWallet" "SOL" 2 =
      (.initiated "cm1" 2 2 0,
        { wStore with
            transactions := wStore.transactions ++
              [{ transaction_id := 0
                 event_id := "e1"
                 payment_method := "SOL"
                 amount := 4
                 currency := "SOL"
                 status := "pending"
                 solana_transaction_signature := none
                 ticket_id := none }]
            nextTxnId := 1 }) := by
  have h := (initiatePurchase_contract wStore "e1" "buyerWallet" "SOL" 2
      (by decide)).2 wEvent (by decide) (by decide) (by decide)
  have h2 := h.2 (by decide)
  simpa using h2

/-- C5: `recordTransfer` fails `NotFound` iff no Ticket exists for the mint
address; when the stored owner already equals the new owner it returns success
with no change to the store; otherwise it updates the owner, sets status
`transferred` and stamps the last-transfer timestamp — and a second call with
the same new owner leaves the store unchanged. -/
theorem recordTransfer_contract (now now2 : Nat) (s : Store) (m o sig sig2 : String)
    (h1 : m ≠ "") (h2 : o ≠ "") (h3 : sig ≠ "") (h4 : sig2 ≠ "") :
    ((recordTransfer now s m o sig).1 = .ticketNotFound ↔
      findTicketByMint s m = none) ∧
    (∀ t, findTicketByMint s m = some t →
      (t.owner_wallet_address = o →
        recordTransfer now s m o sig = (.alreadyUpToDate, s)) ∧
      (t.owner_wallet_address ≠ o →
        recordTransfer now s m o sig =
          (.ownerUpdated t.ticket_id,
            { s with tickets := s.tickets.map (fun tk =>
                if tk.ticket_id == t.ticket_id then
                  { tk with owner_wallet_address := o, status := "transferred",
                            last_transfer_date := some now }
                else tk) }))) ∧
    (recordTransfer now2 (recordTransfer now s m o sig).2 m o sig2).2 =
      (recordTransfer now s m o sig).2 ∧
    (∀ t, findTicketByMint s m = some t →
      (recordTransfer now2 (recordTransfer now s m o sig).2 m o sig2).1 =
        .alreadyUpToDate) := by
  cases hfind : findTicketByMint s m with
  | none =>
    have h0 := recordTransfer_notFound now s h1 h2 h3 hfind
    have h0' := recordTransfer_notFound now2 s h1 h2 h4 hfind
    rw [h0]
    exact ⟨by simp [hfind], fun t ht => by simp [hfind] at ht, by simp [h0'],
      fun t ht => by simp [hfind] at ht⟩
  | some t =>
    by_cases howner : t.owner_wallet_address = o
    · have hup := recordTransfer_upToDate now s h1 h2 h3 hfind howner
      have hup2 := recordTransfer_upToDate now2 s h1 h2 h4 hfind howner
      rw [hup]
      refine ⟨by simp, ?_, by simp [hup2], fun t' ht' => by simp [hup2]⟩
      intro t' ht'
      obtain rfl : t = t' := Option.some.inj ht'
      exact ⟨fun _ => rfl, fun hne => absurd howner hne⟩
    · have hupd := recordTransfer_update now s h1 h2 h3 hfind howner
      have hf : ∀ tk : Ticket,
          ((fun tk => if tk.ticket_id == t.ticket_id then
              { tk with owner_wallet_address := o, status := "transferred",
                        last_transfer_date := some now }
            else tk) tk).nft_mint_address = tk.nft_mint_address := by
        intro tk
        dsimp only
        split <;> rfl
      have hfind0 : findTicketIn s.tickets m = some t := hfind
      have hmap' : findTicketByMint
          { s with tickets := s.tickets.map (fun tk =>
              if tk.ticket_id == t.ticket_id then
                { tk with owner_wallet_address := o, status := "transferred",
                          last_transfer_date := some now }
              else tk) } m =
          some { t with owner_wallet_address := o, status := "transferred",
                        last_transfer_date := some now } := by
        show findTicketIn _ m = _
        rw [findTicketIn_map _ hf, hfind0]
        simp
      have hup2 := recordTransfer_upToDate now2 _ h1 h2 h4 hmap' rfl
      refine ⟨by rw [hupd]; simp, ?_, by rw [hupd, hup2], ?_⟩
      · intro t' ht'
        obtain rfl : t = t' := Option.some.inj ht'
        exact ⟨fun heq => absurd heq howner, fun _ => hupd⟩
      · intro t' ht'
        rw [hupd, hup2]

/-- A sample unused ticket held by walletX, used by the concrete witnesses. -/
def wTicket : Ticket :=
  { ticket_id := 0
    event_id := "e1"
    nft_mint_address := "mintA"
    owner_wallet_address := "walletX"
    seat_info := "Ticket #1"
    status := "purchased"
    is_used := false
    original_purchase_date := 1
    original_purchaser_wallet_address := "walletX"
    qr_code_data := "mintA"
    qr_code_url := "qr-mintA"
    last_transfer_date := none
    updated_at := none }

/-- A sample QR library environment whose renderings always succeed. -/
def wQr : QrEnv := fun data => .dataUrl ("qr-" ++ data)

/-- A sample store with one event and one unused ticket. -/
def wStore2 : Store :=
  { events := [{ wEvent with available_tickets := 2 }]
    tickets := [wTicket]
    transactions := []
    nextTicketId := 1
    nextTxnId := 0 }

/-- C3: `verifyAndConsume` fails `NotFound` iff no Ticket exists for the asset
id; otherwise it fails `Conflict` iff the ticket's `used` flag is already set;
otherwise it checks the caller-asserted owner if supplied (else the stored
owner) against the live on-chain owner, failing `Forbidden` on mismatch, and
on match sets `used = true` and status `used` and returns success with the
Ticket identifier. -/
theorem verifyAndConsume_contract (chain : ChainEnv) (now : Nat) (s : Store)
    (m : String) (a : Option String) (hm : m ≠ "") :
    ((verifyAndConsume chain now s m a).1 = .ticketNotFound ↔
      findTicketByMint s m = none) ∧
    (∀ t, findTicketByMint s m = some t →
      (∀ x, a = some x → x ≠ "" → addressToVerify a t = x) ∧
      (a = none → addressToVerify a t = t.owner_wallet_address) ∧
      ((verifyAndConsume chain now s m a).1 = .alreadyUsed ↔ t.is_used = true) ∧
      (t.is_used = true → verifyAndConsume chain now s m a = (.alreadyUsed, s)) ∧
      (t.is_used = false → addressToVerify a t ≠ "" →
        (verifyTicketOwnershipOnChain chain m (addressToVerify a t) = false →
          verifyAndConsume chain now s m a = (.ownershipMismatch, s)) ∧
        (verifyTicketOwnershipOnChain chain m (addressToVerify a t) = true →
          (verifyAndConsume chain now s m a).1 = .verified t.ticket_id ∧
          findTicketByMint (verifyAndConsume chain now s m a).2 m =
            some { t with is_used := true, status := "used",
                          updated_at := some now }))) := by
  cases hfind : findTicketByMint s m with
  | none =>
    have h0 := verify_notFound chain now s a hm hfind
    rw [h0]
    exact ⟨by simp, fun t ht => by cases ht⟩
  | some t =>
    have hAddrSome : ∀ x, a = some x → x ≠ "" → addressToVerify a t = x := by
      intro x hx hxne
      subst hx
      simp [addressToVerify, hxne]
    have hAddrNone : a = none → addressToVerify a t = t.owner_wallet_address := by
      intro hx
      subst hx
      rfl
    cases hu : t.is_used with
    | true =>
      have h0 := verify_used chain now s a hm hfind hu
      rw [h0]
      refine ⟨by simp, ?_⟩
      intro t' ht'
      obtain rfl : t = t' := Option.some.inj ht'
      exact ⟨hAddrSome, hAddrNone, by simp [hu], fun _ => rfl,
        fun hfalse => absurd hfalse (by simp [hu])⟩
    | false =>
      by_cases haddr : addressToVerify a t = ""
      · have h0 := verify_missingOwner chain now s a hm hfind hu haddr
        rw [h0]
        refine ⟨by simp, ?_⟩
        intro t' ht'
        obtain rfl : t = t' := Option.some.inj ht'
        exact ⟨hAddrSome, hAddrNone, by simp [hu], fun htrue => absurd htrue (by simp [hu]),
          fun _ hne => absurd haddr hne⟩
      · cases hchain : verifyTicketOwnershipOnChain chain m (addressToVerify a t) with
        | false =>
          have h0 := verify_mismatch chain now s a hm hfind hu haddr hchain
          rw [h0]
          refine ⟨by simp, ?_⟩
          intro t' ht'
          obtain rfl : t = t' := Option.some.inj ht'
          exact ⟨hAddrSome, hAddrNone, by simp [hu], fun htrue => absurd htrue (by simp [hu]),
            fun _ _ => ⟨fun _ => rfl, fun htrue => absurd htrue (by simp [hchain])⟩⟩
        | true =>
          have h0 := verify_ok chain now s a hm hfind hu haddr hchain
          have hf : ∀ tk : Ticket,
              ((fun tk => if tk.ticket_id == t.ticket_id then
                  { tk with is_used := true, status := "used", updated_at := some now }
                else tk) tk).nft_mint_address = tk.nft_mint_address := by
            intro tk
            dsimp only
            split <;> rfl
          have hfind0 : findTicketIn s.tickets m = some t := hfind
          have hmap' : findTicketByMint
              { s with tickets := s.tickets.map (fun tk =>
                  if tk.ticket_id == t.ticket_id then
                    { tk with is_used := true, status := "used", updated_at := some now }
                  else tk) } m =
              some { t with is_used := true, status := "used",
                            updated_at := some now } := by
            show findTicketIn _ m = _
            rw [findTicketIn_map _ hf, hfind0]
            simp
          rw [h0]
          refine ⟨by simp, ?_⟩
          intro t' ht'
          obtain rfl : t = t' := Option.some.inj ht'
          exact ⟨hAddrSome, hAddrNone, by simp [hu], fun htrue => absurd htrue (by simp [hu]),
            fun _ _ => ⟨fun hfalse => absurd hfalse (by simp [hchain]), fun _ => ⟨rfl, hmap'⟩⟩⟩

/-- Witness for C3: on the sample store the asserted owner walletX matches the
live on-chain owner and the concrete verify call consumes the ticket. -/
theorem verifyAndConsume_contract_witness :
    (verifyAndConsume (fun _ => .onChainOwner "walletX") 7 wStore2 "mintA"
      (some "walletX")).1 = .verified 0 ∧
    findTicketByMint
      (verifyAndConsume (fun _ => .onChainOwner "walletX") 7 wStore2 "mintA"
        (some "walletX")).2 "mintA" =
      some { wTicket with is_used := true, status := "used", updated_at := some 7 } := by
  have h := ((verifyAndConsume_contract (fun _ => .onChainOwner "walletX") 7 wStore2
      "mintA" (some "walletX") (by decide)).2 wTicket (by decide)).2.2.2.2
      (by decide) (by decide)
  exact h.2 (by decide)

/-- Witness for C5: a concrete transfer to walletZ updates the sample ticket,
and repeating it leaves the store unchanged. -/
theorem recordTransfer_contract_witness :
    recordTransfer 5 wStore2 "mintA" "walletZ" "sigT" =
      (.ownerUpdated 0,
        { wStore2 with tickets := wStore2.tickets.map (fun tk =>
            if tk.ticket_id == 0 then
              { tk with owner_wallet_address := "walletZ", status := "transferred",
                        last_transfer_date := some 5 }
            else tk) }) ∧
    (recordTransfer 6 (recordTransfer 5 wStore2 "mintA" "walletZ" "sigT").2
        "mintA" "walletZ" "sigU").2 =
      (recordTransfer 5 wStore2 "mintA" "walletZ" "sigT").2 := by
  have h := recordTransfer_contract 5 6 wStore2 "mintA" "walletZ" "sigT" "sigU"
    (by decide) (by decide) (by decide) (by decide)
  exact ⟨(h.2.1 wTicket (by decide)).2 (by decide), h.2.2.1⟩

/-- C1: `recordMint` is idempotent in the asset id: when a Ticket row already
exists for the mint address the call returns success without mutating the
store; hence two calls with the same mint address leave exactly one Ticket row
for it and decrement the event's `available_tickets` exactly once. -/
theorem recordMint_idempotent
    (qr qr2 : QrEnv) (now now2 : Nat) (s : Store) (eid m o sig : String)
    (tid : Option Nat) (eid2 o2 sig2 : String) (tid2 : Option Nat)
    (h1 : eid ≠ "") (h2 : m ≠ "") (h3 : o ≠ "") (h4 : sig ≠ "")
    (h5 : eid2 ≠ "") (h6 : o2 ≠ "") (h7 : sig2 ≠ "") :
    (∀ t, findTicketByMint s m = some t →
      recordMint qr now s eid m o sig tid = (.alreadyProcessed, s)) ∧
    (∀ ev u, findTicketByMint s m = none →
      generateQrCodeDataUrl qr m = .ok u →
      findEventById s eid = some ev →
      recordMint qr2 now2 (recordMint qr now s eid m o sig tid).2 eid2 m o2 sig2 tid2 =
        (.alreadyProcessed, (recordMint qr now s eid m o sig tid).2) ∧
      mintRowCount m (recordMint qr now s eid m o sig tid).2 = 1 ∧
      mintRowCount m s = 0 ∧
      (∃ ev1, findEventById (recordMint qr now s eid m o sig tid).2 eid = some ev1 ∧
        ev1.available_tickets = ev.available_tickets - 1)) := by
  constructor
  · intro t ht
    exact recordMintAux_dup false false qr now s tid h1 h2 h3 h4 ht
  · intro ev u hnone hqr hev
    unfold recordMint
    have hins := recordMintAux_insert false false qr now s tid h1 h2 h3 h4 hnone hqr hev
    rw [hins]
    have hnone0 : findTicketIn s.tickets m = none := hnone
    have hev0 : findEventIn s.events eid = some ev := hev
    have hpa : ((mintTicket now s eid m o u ev).nft_mint_address == m) = true := by
      simp [mintTicket]
    have hsingle : findTicketIn [mintTicket now s eid m o u ev] m =
        some (mintTicket now s eid m o u ev) := by
      unfold findTicketIn
      exact List.find?_cons_of_pos _ hpa
    have hfindS1 : findTicketIn (s.tickets ++ [mintTicket now s eid m o u ev]) m =
        some (mintTicket now s eid m o u ev) := by
      rw [findTicketIn_append_right _ hnone0]
      exact hsingle
    have hfil : s.tickets.filter (fun t => t.nft_mint_address == m) = [] :=
      List.filter_eq_nil_iff.mpr (List.find?_eq_none.mp hnone0)
    refine ⟨?_, ?_, ?_, ?_⟩
    · exact recordMintAux_dup false false qr2 now2 _ tid2 h5 h2 h6 h7 hfindS1
    · simp [mintRowCount, List.filter_append, hfil, hpa]
    · simp [mintRowCount, hfil]
    · have hg : ∀ e : Event,
          ((fun e => if e.event_id == eid then
              { e with available_tickets := ev.available_tickets - 1 }
            else e) e).event_id = e.event_id := by
        intro e
        dsimp only
        split <;> rfl
      have hpe := List.find?_some hev0
      refine ⟨{ ev with available_tickets := ev.available_tickets - 1 }, ?_, rfl⟩
      show findEventIn (s.events.map (fun e =>
          if e.event_id == eid then
            { e with available_tickets := ev.available_tickets - 1 }
          else e)) eid = _
      rw [findEventIn_map _ hg, hev0]
      exact congrArg some (if_pos hpe)

/-- Witness for C1: against the sample store, minting the same asset twice
records one row, answers idempotently, and leaves `available_tickets` at 2. -/
theorem recordMint_idempotent_witness :
    (recordMint wQr 2 (recordMint wQr 1 wStore "e1" "mintA" "walletX" "sig1" none).2
        "e1" "mintA" "walletY" "sig2" none).1 = .alreadyProcessed ∧
    mintRowCount "mintA"
      (recordMint wQr 1 wStore "e1" "mintA" "walletX" "sig1" none).2 = 1 ∧
    (∃ ev1, findEventById (recordMint wQr 1 wStore "e1" "mintA" "walletX" "sig1"
        none).2 "e1" = some ev1 ∧ ev1.available_tickets = 2) := by
  have h := (recordMint_idempotent wQr wQr 1 2 wStore "e1" "mintA" "walletX" "sig1"
      none "e1" "walletY" "sig2" none (by decide) (by decide) (by decide) (by decide)
      (by decide) (by decide) (by decide)).2 wEvent "qr-mintA" (by decide) rfl
      (by decide)
  exact ⟨by rw [h.1], h.2.1, h.2.2.2⟩

theorem findTicketIn_insert {l : List Ticket} {m : String} {t : Ticket}
    (hnone : findTicketIn l m = none) (ht : (t.nft_mint_address == m) = true) :
    findTicketIn (l ++ [t]) m = some t := by
  rw [findTicketIn_append_right _ hnone]
  unfold findTicketIn
  exact List.find?_cons_of_pos _ ht

/-- C7: a `recordMint` call that creates a new Ticket gives it the seat label
`Ticket #` followed by `total_tickets - available_tickets + 1`, computed from
the Event's counters as read at that call. -/
theorem seat_label_formula (qr : QrEnv) (now : Nat) (s : Store)
    (eid m o sig u : String) (tid : Option Nat) (ev : Event)
    (h1 : eid ≠ "") (h2 : m ≠ "") (h3 : o ≠ "") (h4 : sig ≠ "")
    (hnone : findTicketByMint s m = none)
    (hqr : generateQrCodeDataUrl qr m = .ok u)
    (hev : findEventById s eid = some ev) :
    (recordMint qr now s eid m o sig tid).1 = .recorded (mintTicket now s eid m o u ev) ∧
    (mintTicket now s eid m o u ev).seat_info =
      "Ticket #" ++ toString (ev.total_tickets - ev.available_tickets + 1) ∧
    findTicketByMint (recordMint qr now s eid m o sig tid).2 m =
      some (mintTicket now s eid m o u ev) := by
  have hins := recordMintAux_insert false false qr now s tid h1 h2 h3 h4 hnone hqr hev
  have hpa : ((mintTicket now s eid m o u ev).nft_mint_address == m) = true := by
    simp [mintTicket]
  unfold recordMint
  rw [hins]
  exact ⟨rfl, rfl, findTicketIn_insert hnone hpa⟩

/-- Witness for C7, covering the spec's scenario: on an event with
`total = 3, available = 3`, minting assetA yields seat `Ticket #1` and
`available = 2`; repeating the mint for assetA changes nothing; minting
assetB yields seat `Ticket #2` and `available = 1`. -/
theorem seat_label_formula_witness :
    (recordMint wQr 1 wStore "e1" "assetA" "walletX" "sig1" none).1 =
      .recorded (mintTicket 1 wStore "e1" "assetA" "walletX" "qr-assetA" wEvent) ∧
    (mintTicket 1 wStore "e1" "assetA" "walletX" "qr-assetA" wEvent).seat_info =
      "Ticket #1" ∧
    ((findEventById (recordMint wQr 1 wStore "e1" "assetA" "walletX" "sig1"
        none).2 "e1").map Event.available_tickets = some 2 ∧
      recordMint wQr 2 (recordMint wQr 1 wStore "e1" "assetA" "walletX" "sig1" none).2
          "e1" "assetA" "walletX" "sig9" none =
        (.alreadyProcessed,
          (recordMint wQr 1 wStore "e1" "assetA" "walletX" "sig1" none).2) ∧
      (∃ t2, (recordMint wQr 3 (recordMint wQr 1 wStore "e1" "assetA" "walletX"
          "sig1" none).2 "e1" "assetB" "walletY" "sig2" none).1 = .recorded t2 ∧
        t2.seat_info = "Ticket #2") ∧
      (findEventById (recordMint wQr 3 (recordMint wQr 1 wStore "e1" "assetA"
          "walletX" "sig1" none).2 "e1" "assetB" "walletY" "sig2" none).2 "e1").map
        Event.available_tickets = some 1) := by
  have h := seat_label_formula wQr 1 wStore "e1" "assetA" "walletX" "sig1" "qr-assetA"
    none wEvent (by decide) (by decide) (by decide) (by decide) (by decide) rfl
    (by decide)
  refine ⟨h.1, by decide, by decide, by decide, ?_, by decide⟩
  exact ⟨mintTicket 3 (recordMint wQr 1 wStore "e1" "assetA" "walletX" "sig1" none).2
    "e1" "assetB" "walletY" "qr-assetB" { wEvent with available_tickets := 2 },
    by decide, by decide⟩

/-- C8: once the Ticket insert of a `recordMint` call has succeeded, a failure
of the `available_tickets` decrement or of the optional Transaction update is
only logged: the call still reports success, the inserted Ticket row stays,
and the skipped update is the only difference. -/
theorem mint_no_rollback (fd ft : Bool) (qr : QrEnv) (now : Nat) (s : Store)
    (eid m o sig u : String) (tid : Option Nat) (ev : Event)
    (h1 : eid ≠ "") (h2 : m ≠ "") (h3 : o ≠ "") (h4 : sig ≠ "")
    (hnone : findTicketByMint s m = none)
    (hqr : generateQrCodeDataUrl qr m = .ok u)
    (hev : findEventById s eid = some ev) :
    (recordMintAux fd ft qr now s eid m o sig tid).1 =
      .recorded (mintTicket now s eid m o u ev) ∧
    (recordMintAux fd ft qr now s eid m o sig tid).2.tickets =
      s.tickets ++ [mintTicket now s eid m o u ev] ∧
    findTicketByMint (recordMintAux fd ft qr now s eid m o sig tid).2 m =
      some (mintTicket now s eid m o u ev) ∧
    (fd = true → (recordMintAux fd ft qr now s eid m o sig tid).2.events = s.events) ∧
    (ft = true → (recordMintAux fd ft qr now s eid m o sig tid).2.transactions =
      s.transactions) := by
  have hins := recordMintAux_insert fd ft qr now s tid h1 h2 h3 h4 hnone hqr hev
  have hpa : ((mintTicket now s eid m o u ev).nft_mint_address == m) = true := by
    simp [mintTicket]
  rw [hins]
  refine ⟨rfl, rfl, findTicketIn_insert hnone hpa, ?_, ?_⟩
  · intro hfd
    subst hfd
    rfl
  · intro hft
    subst hft
    cases tid <;> rfl

/-- A sample pending transaction awaiting its mint. -/
def wTxn : Txn :=
  { transaction_id := 0
    event_id := "e1"
    payment_method := "SOL"
    amount := 2
    currency := "SOL"
    status := "pending"
    solana_transaction_signature := none
    ticket_id := none }

/-- A sample store with one event and one pending transaction. -/
def wStore3 : Store :=
  { events := [wEvent]
    tickets := []
    transactions := [wTxn]
    nextTicketId := 0
    nextTxnId := 1 }

/-- Witness for C8: with both the counter decrement and the transaction update
failing, the concrete mint still reports success and keeps the inserted row. -/
theorem mint_no_rollback_witness :
    (recordMintAux true true wQr 4 wStore3 "e1" "assetA" "walletX" "sig1" (some 0)).1 =
      .recorded (mintTicket 4 wStore3 "e1" "assetA" "walletX" "qr-assetA" wEvent) ∧
    (recordMintAux true true wQr 4 wStore3 "e1" "assetA" "walletX" "sig1"
      (some 0)).2.events = wStore3.events ∧
    (recordMintAux true true wQr 4 wStore3 "e1" "assetA" "walletX" "sig1"
      (some 0)).2.transactions = wStore3.transactions := by
  have h := mint_no_rollback true true wQr 4 wStore3 "e1" "assetA" "walletX" "sig1"
    "qr-assetA" (some 0) wEvent (by decide) (by decide) (by decide) (by decide)
    (by decide) rfl (by decide)
  exact ⟨h.1, h.2.2.2.1 rfl, h.2.2.2.2 rfl⟩

/-- C10: `recordTransfer` touches only the owner, status and last-transfer
fields of the Ticket and never `is_used`; applied to an already-used ticket it
rewrites status to `transferred` while `is_used` stays true, so a later
`verifyAndConsume` for the asset id still fails with `Conflict`. -/
theorem transfer_frame_used (now : Nat) (s : Store) (m newOwner sig : String)
    (t : Ticket) (h1 : m ≠ "") (h2 : newOwner ≠ "") (h3 : sig ≠ "")
    (hfind : findTicketByMint s m = some t) :
    ∃ t', findTicketByMint (recordTransfer now s m newOwner sig).2 m = some t' ∧
      t'.is_used = t.is_used ∧
      t'.ticket_id = t.ticket_id ∧
      t'.event_id = t.event_id ∧
      t'.nft_mint_address = t.nft_mint_address ∧
      t'.seat_info = t.seat_info ∧
      t'.original_purchase_date = t.original_purchase_date ∧
      t'.original_purchaser_wallet_address = t.original_purchaser_wallet_address ∧
      t'.qr_code_data = t.qr_code_data ∧
      t'.qr_code_url = t.qr_code_url ∧
      t'.updated_at = t.updated_at ∧
      (t.owner_wallet_address ≠ newOwner → t'.status = "transferred" ∧
        t'.owner_wallet_address = newOwner) ∧
      (t.is_used = true → ∀ (chain : ChainEnv) (now2 : Nat) (a : Option String),
        (verifyAndConsume chain now2 (recordTransfer now s m newOwner sig).2 m a).1 =
          .alreadyUsed) := by
  by_cases howner : t.owner_wallet_address = newOwner
  · have hup := recordTransfer_upToDate now s h1 h2 h3 hfind howner
    refine ⟨t, by rw [hup]; exact hfind, rfl, rfl, rfl, rfl, rfl, rfl, rfl, rfl, rfl,
      rfl, fun hne => absurd howner hne, ?_⟩
    intro hu chain now2 a
    rw [hup]
    rw [verify_used chain now2 s a h1 hfind hu]
  · have hupd := recordTransfer_update now s h1 h2 h3 hfind howner
    have hf : ∀ tk : Ticket,
        ((fun tk => if tk.ticket_id == t.ticket_id then
            { tk with owner_wallet_address := newOwner, status := "transferred",
                      last_transfer_date := some now }
          else tk) tk).nft_mint_address = tk.nft_mint_address := by
      intro tk
      dsimp only
      split <;> rfl
    have hfind0 : findTicketIn s.tickets m = some t := hfind
    have hmap' : findTicketByMint
        { s with tickets := s.tickets.map (fun tk =>
            if tk.ticket_id == t.ticket_id then
              { tk with owner_wallet_address := newOwner, status := "transferred",
                        last_transfer_date := some now }
            else tk) } m =
        some { t with owner_wallet_address := newOwner, status := "transferred",
                      last_transfer_date := some now } := by
      show findTicketIn _ m = _
      rw [findTicketIn_map _ hf, hfind0]
      simp
    refine ⟨{ t with owner_wallet_address := newOwner, status := "transferred",
                     last_transfer_date := some now },
      by rw [hupd]; exact hmap', rfl, rfl, rfl, rfl, rfl, rfl, rfl, rfl, rfl, rfl,
      fun _ => ⟨rfl, rfl⟩, ?_⟩
    intro hu chain now2 a
    rw [hupd]
    rw [verify_used chain now2 _ a h1 hmap' (by exact hu)]

/-- A sample store holding one already-used ticket. -/
def wStore4 : Store :=
  { events := [{ wEvent with available_tickets := 2 }]
    tickets := [{ wTicket with is_used := true, status := "used" }]
    transactions := []
    nextTicketId := 1
    nextTxnId := 0 }

/-- Witness for C10: transferring a used ticket to walletZ, then verifying
with the correct on-chain owner, still fails with `Conflict`. -/
theorem transfer_frame_used_witness :
    (verifyAndConsume (fun _ => .onChainOwner "walletZ") 9
      (recordTransfer 8 wStore4 "mintA" "walletZ" "sigV").2 "mintA"
      (some "walletZ")).1 = .alreadyUsed := by
  obtain ⟨t', hfind', hiu, htid, heid, hmint, hseat, hopd, hopw, hqrd, hqru, hupd2,
      htrans, hver⟩ :=
    transfer_frame_used 8 wStore4 "mintA" "walletZ" "sigV"
      { wTicket with is_used := true, status := "used" }
      (by decide) (by decide) (by decide) (by decide)
  exact hver rfl _ 9 (some "walletZ")

theorem recordMintAux_tickets_extend (d f : Bool) (qr : QrEnv) (now : Nat)
    (s : Store) (eid m2 o sig : String) (tid : Option Nat) :
    ∃ tl, (recordMintAux d f qr now s eid m2 o sig tid).2.tickets =
      s.tickets ++ tl := by
  unfold recordMintAux
  split
  · exact ⟨[], (List.append_nil _).symm⟩
  · cases hfind2 : findTicketByMint s m2 with
    | some t => exact ⟨[], (List.append_nil _).symm⟩
    | none =>
      cases hqr : generateQrCodeDataUrl qr m2 with
      | error e0 => exact ⟨[], (List.append_nil _).symm⟩
      | ok u =>
        cases hev : findEventById s eid with
        | none => exact ⟨[], (List.append_nil _).symm⟩
        | some ev =>
          refine ⟨[mintTicket now s eid m2 o u ev], ?_⟩
          cases d <;> cases f <;> cases tid <;> rfl

theorem recordTransfer_tickets_shape (now : Nat) (s : Store) (m2 o sig : String) :
    (recordTransfer now s m2 o sig).2.tickets = s.tickets ∨
    ∃ f : Ticket → Ticket,
      (∀ tk, (f tk).nft_mint_address = tk.nft_mint_address ∧
        (f tk).is_used = tk.is_used) ∧
      (recordTransfer now s m2 o sig).2.tickets = s.tickets.map f := by
  unfold recordTransfer
  split
  · exact Or.inl rfl
  · cases hfind2 : findTicketByMint s m2 with
    | none => exact Or.inl rfl
    | some t =>
      cases howq : (t.owner_wallet_address == o) with
      | true => exact Or.inl (by simp [howq])
      | false =>
        refine Or.inr ⟨(fun tk => if tk.ticket_id == t.ticket_id then
            { tk with owner_wallet_address := o, status := "transferred",
                      last_transfer_date := some now }
          else tk), ?_, by simp [howq]⟩
        intro tk
        dsimp only
        split <;> exact ⟨rfl, rfl⟩

theorem verify_tickets_shape (chain : ChainEnv) (now : Nat) (s : Store)
    (m2 : String) (a : Option String) :
    (verifyAndConsume chain now s m2 a).2.tickets = s.tickets ∨
    ∃ f : Ticket → Ticket,
      (∀ tk, (f tk).nft_mint_address = tk.nft_mint_address ∧
        (tk.is_used = true → (f tk).is_used = true)) ∧
      (verifyAndConsume chain now s m2 a).2.tickets = s.tickets.map f := by
  unfold verifyAndConsume
  split
  · exact Or.inl rfl
  · cases hfind2 : findTicketByMint s m2 with
    | none => exact Or.inl rfl
    | some t =>
      cases hu : t.is_used with
      | true => exact Or.inl (by simp [hu])
      | false =>
        cases haddr : (addressToVerify a t == "") with
        | true => exact Or.inl (by simp [hu, haddr])
        | false =>
          cases hchain : verifyTicketOwnershipOnChain chain m2 (addressToVerify a t) with
          | false => exact Or.inl (by simp [hu, haddr, hchain])
          | true =>
            refine Or.inr ⟨(fun tk => if tk.ticket_id == t.ticket_id then
                { tk with is_used := true, status := "used", updated_at := some now }
              else tk), ?_, by simp [hu, haddr, hchain]⟩
            intro tk
            constructor
            · dsimp only
              split <;> rfl
            · intro hu2
              dsimp only
              split
              · rfl
              · exact hu2

theorem usedPreserved_map {l : List Ticket} {m : String} {t : Ticket}
    (f : Ticket → Ticket)
    (hmint : ∀ tk, (f tk).nft_mint_address = tk.nft_mint_address)
    (hused : ∀ tk, tk.is_used = true → (f tk).is_used = true)
    (hfind : findTicketIn l m = some t) (hu : t.is_used = true) :
    ∃ t', findTicketIn (l.map f) m = some t' ∧ t'.is_used = true := by
  refine ⟨f t, ?_, hused t hu⟩
  rw [findTicketIn_map _ hmint, hfind]
  rfl

theorem applyStep_preserves_used (s : Store) (i : StepInput) {m : String} {t : Ticket}
    (hfind : findTicketByMint s m = some t) (hu : t.is_used = true) :
    ∃ t', findTicketByMint (applyStep s i) m = some t' ∧ t'.is_used = true := by
  obtain ⟨op, chain, iqr, inow⟩ := i
  have hfind0 : findTicketIn s.tickets m = some t := hfind
  cases op with
  | mintSuccess eid m2 o sig tid =>
    obtain ⟨tl, htl⟩ :=
      recordMintAux_tickets_extend false false iqr inow s eid m2 o sig tid
    refine ⟨t, ?_, hu⟩
    show findTicketIn
      (recordMintAux false false iqr inow s eid m2 o sig tid).2.tickets m = some t
    rw [htl]
    exact findTicketIn_append_left tl hfind0
  | transferUpdate m2 o sig =>
    rcases recordTransfer_tickets_shape inow s m2 o sig with hsame | ⟨f, hp, heq⟩
    · refine ⟨t, ?_, hu⟩
      show findTicketIn (recordTransfer inow s m2 o sig).2.tickets m = some t
      rw [hsame]
      exact hfind0
    · obtain ⟨t', ht', hu'⟩ := usedPreserved_map f (fun tk => (hp tk).1)
        (fun tk h0 => ((hp tk).2).trans h0) hfind0 hu
      refine ⟨t', ?_, hu'⟩
      show findTicketIn (recordTransfer inow s m2 o sig).2.tickets m = some t'
      rw [heq]
      exact ht'
  | verifyEntry m2 a =>
    rcases verify_tickets_shape chain inow s m2 a with hsame | ⟨f, hp, heq⟩
    · refine ⟨t, ?_, hu⟩
      show findTicketIn (verifyAndConsume chain inow s m2 a).2.tickets m = some t
      rw [hsame]
      exact hfind0
    · obtain ⟨t', ht', hu'⟩ := usedPreserved_map f (fun tk => (hp tk).1)
        (fun tk h0 => (hp tk).2 h0) hfind0 hu
      refine ⟨t', ?_, hu'⟩
      show findTicketIn (verifyAndConsume chain inow s m2 a).2.tickets m = some t'
      rw [heq]
      exact ht'

theorem runSteps_preserves_used (l : List StepInput) (s : Store) {m : String}
    {t : Ticket} (hfind : findTicketByMint s m = some t) (hu : t.is_used = true) :
    ∃ t', findTicketByMint (runSteps s l) m = some t' ∧ t'.is_used = true := by
  induction l generalizing s t with
  | nil => exact ⟨t, hfind, hu⟩
  | cons i rest ih =>
    obtain ⟨t1, h1, hu1⟩ := applyStep_preserves_used s i hfind hu
    exact ih _ h1 hu1

/-- C4: `used` is a one-way latch.  After a successful `verifyAndConsume`, no
interleaving of `recordMint`, `recordTransfer` and `verifyAndConsume` steps
ever clears the flag, so every later `verifyAndConsume` for the same asset id
fails with `Conflict`, whatever owner is asserted. -/
theorem verify_used_latch (chain : ChainEnv) (now : Nat) (s : Store) (m : String)
    (a : Option String) (tid : Nat) (s₀ : Store)
    (h : verifyAndConsume chain now s m a = (.verified tid, s₀)) :
    ∀ (l : List StepInput) (chain2 : ChainEnv) (now2 : Nat) (a2 : Option String),
      (verifyAndConsume chain2 now2 (runSteps s₀ l) m a2).1 = .alreadyUsed := by
  have hm : m ≠ "" := by
    intro h0
    subst h0
    unfold verifyAndConsume at h
    simp at h
  cases hfind : findTicketByMint s m with
  | none =>
    rw [verify_notFound chain now s a hm hfind] at h
    simp at h
  | some t =>
    cases hu : t.is_used with
    | true =>
      rw [verify_used chain now s a hm hfind hu] at h
      simp at h
    | false =>
      by_cases haddr : addressToVerify a t = ""
      · rw [verify_missingOwner chain now s a hm hfind hu haddr] at h
        simp at h
      · cases hchain : verifyTicketOwnershipOnChain chain m (addressToVerify a t) with
        | false =>
          rw [verify_mismatch chain now s a hm hfind hu haddr hchain] at h
          simp at h
        | true =>
          rw [verify_ok chain now s a hm hfind hu haddr hchain] at h
          injection h with hres hstore
          subst hstore
          have hf : ∀ tk : Ticket,
              ((fun tk => if tk.ticket_id == t.ticket_id then
                  { tk with is_used := true, status := "used", updated_at := some now }
                else tk) tk).nft_mint_address = tk.nft_mint_address := by
            intro tk
            dsimp only
            split <;> rfl
          have hfind0 : findTicketIn s.tickets m = some t := hfind
          have hmap' : findTicketByMint
              { s with tickets := s.tickets.map (fun tk =>
                  if tk.ticket_id == t.ticket_id then
                    { tk with is_used := true, status := "used", updated_at := some now }
                  else tk) } m =
              some { t with is_used := true, status := "used",
                            updated_at := some now } := by
            show findTicketIn _ m = _
            rw [findTicketIn_map _ hf, hfind0]
            simp
          intro l chain2 now2 a2
          obtain ⟨t', ht', hu'⟩ := runSteps_preserves_used l _ hmap' rfl
          rw [verify_used chain2 now2 _ a2 hm ht' hu']

/-- Witness for C4: consume the sample ticket, transfer it on, and verify
again with the correct new on-chain owner — the call still answers
`Conflict`. -/
theorem verify_used_latch_witness :
    (verifyAndConsume (fun _ => .onChainOwner "walletX") 11
      (runSteps (verifyAndConsume (fun _ => .onChainOwner "walletX") 10 wStore2
          "mintA" none).2
        [⟨.transferUpdate "mintA" "walletZ" "sigW", fun _ => .onChainOwner "walletZ",
          wQr, 12⟩])
      "mintA" (some "walletZ")).1 = .alreadyUsed :=
  verify_used_latch (fun _ => .onChainOwner "walletX") 10 wStore2 "mintA" none 0
    (verifyAndConsume (fun _ => .onChainOwner "walletX") 10 wStore2 "mintA" none).2
    (by decide)
    [⟨.transferUpdate "mintA" "walletZ" "sigW", fun _ => .onChainOwner "walletZ",
      wQr, 12⟩]
    (fun _ => .onChainOwner "walletX") 11 (some "walletZ")

theorem ticketCountL_append_one (eid : String) (l : List Ticket) (nt : Ticket) :
    ticketCountL eid (l ++ [nt]) =
      ticketCountL eid l + (if nt.event_id == eid then 1 else 0) := by
  unfold ticketCountL
  rw [List.filter_append, List.length_append]
  cases h : (nt.event_id == eid) <;> simp [h]

theorem recordMintAux_invalid (d f : Bool) (qr : QrEnv) (now : Nat) (s : Store)
    {eid m o sig : String} (tid : Option Nat)
    (h : (eid == "" || m == "" || o == "" || sig == "") = true) :
    recordMintAux d f qr now s eid m o sig tid = (.missingFields, s) := by
  unfold recordMintAux
  simp [h]

theorem applyMint_counter (s : Store) (c : MintCall) {eid : String} {ev : Event}
    (hev : findEventById s eid = some ev) :
    ∃ ev', findEventById (applyMint s c) eid = some ev' ∧
      ev'.total_tickets = ev.total_tickets ∧
      ev'.available_tickets + eventTicketCount eid (applyMint s c) =
        ev.available_tickets + eventTicketCount eid s ∧
      ev'.available_tickets ≤ ev.available_tickets := by
  obtain ⟨ceid, cm, co, csig, ctid, cqr, cnow⟩ := c
  rw [show applyMint s ⟨ceid, cm, co, csig, ctid, cqr, cnow⟩ =
    (recordMintAux false false cqr cnow s ceid cm co csig ctid).2 from rfl]
  by_cases hval : (ceid == "" || cm == "" || co == "" || csig == "") = true
  · rw [recordMintAux_invalid false false cqr cnow s ctid hval]
    exact ⟨ev, hev, rfl, rfl, le_refl _⟩
  · have h1 : ceid ≠ "" := fun h0 => hval (by simp [h0])
    have h2 : cm ≠ "" := fun h0 => hval (by simp [h0])
    have h3 : co ≠ "" := fun h0 => hval (by simp [h0])
    have h4 : csig ≠ "" := fun h0 => hval (by simp [h0])
    cases hdup : findTicketByMint s cm with
    | some t0 =>
      rw [recordMintAux_dup false false cqr cnow s ctid h1 h2 h3 h4 hdup]
      exact ⟨ev, hev, rfl, rfl, le_refl _⟩
    | none =>
      cases hqr : generateQrCodeDataUrl cqr cm with
      | error e0 =>
        rw [recordMintAux_qrFailure false false cqr cnow s ctid h1 h2 h3 h4 hdup hqr]
        exact ⟨ev, hev, rfl, rfl, le_refl _⟩
      | ok u =>
        cases hevc : findEventById s ceid with
        | none =>
          rw [recordMintAux_noEvent false false cqr cnow s ctid h1 h2 h3 h4 hdup hqr
            hevc]
          exact ⟨ev, hev, rfl, rfl, le_refl _⟩
        | some ev2 =>
          rw [recordMintAux_insert false false cqr cnow s ctid h1 h2 h3 h4 hdup hqr
            hevc]
          have hg : ∀ e : Event,
              ((fun e => if e.event_id == ceid then
                  { e with available_tickets := ev2.available_tickets - 1 }
                else e) e).event_id = e.event_id := by
            intro e
            dsimp only
            split <;> rfl
          by_cases heq : ceid = eid
          · subst heq
            rw [hev] at hevc
            obtain rfl : ev = ev2 := Option.some.inj hevc
            have hev0 : findEventIn s.events ceid = some ev := hev
            have hpe := List.find?_some hev0
            have hnt : ((mintTicket cnow s ceid cm co u ev).event_id == ceid) = true := by
              simp [mintTicket]
            refine ⟨{ ev with available_tickets := ev.available_tickets - 1 },
              ?_, rfl, ?_, show ev.available_tickets - 1 ≤ ev.available_tickets by omega⟩
            · show findEventIn (s.events.map (fun e =>
                  if e.event_id == ceid then
                    { e with available_tickets := ev.available_tickets - 1 }
                  else e)) ceid = _
              rw [findEventIn_map _ hg, hev0]
              exact congrArg some (if_pos hpe)
            · show ev.available_tickets - 1 +
                  ticketCountL ceid (s.tickets ++ [mintTicket cnow s ceid cm co u ev]) =
                ev.available_tickets + ticketCountL ceid s.tickets
              rw [ticketCountL_append_one, if_pos hnt]
              omega
          · have hev0 : findEventIn s.events eid = some ev := hev
            have hpe := List.find?_some hev0
            have hideq : ev.event_id = eid := by simpa using hpe
            have hne : (ev.event_id == ceid) = false := by
              rw [hideq]
              simp [show eid ≠ ceid from fun h => heq h.symm]
            have hntf : ((mintTicket cnow s ceid cm co u ev2).event_id == eid) = false := by
              show (ceid == eid) = false
              simp [heq]
            refine ⟨ev, ?_, rfl, ?_, le_refl _⟩
            · show findEventIn (s.events.map (fun e =>
                  if e.event_id == ceid then
                    { e with available_tickets := ev2.available_tickets - 1 }
                  else e)) eid = _
              rw [findEventIn_map _ hg, hev0]
              exact congrArg some (if_neg (by simp [hne]))
            · show ev.available_tickets +
                  ticketCountL eid (s.tickets ++ [mintTicket cnow s ceid cm co u ev2]) =
                ev.available_tickets + ticketCountL eid s.tickets
              rw [ticketCountL_append_one, if_neg (by simp [hntf])]
              omega

theorem runMints_counter (l : List MintCall) (s : Store) {eid : String} {ev : Event}
    (hev : findEventById s eid = some ev) :
    ∃ ev', findEventById (runMints s l) eid = some ev' ∧
      ev'.total_tickets = ev.total_tickets ∧
      ev'.available_tickets + eventTicketCount eid (runMints s l) =
        ev.available_tickets + eventTicketCount eid s ∧
      ev'.available_tickets ≤ ev.available_tickets := by
  induction l generalizing s ev with
  | nil => exact ⟨ev, hev, rfl, rfl, le_refl _⟩
  | cons c rest ih =>
    obtain ⟨ev1, h1, h2, h3, h4⟩ := applyMint_counter s c hev
    obtain ⟨ev', g1, g2, g3, g4⟩ := ih (applyMint s c) h1
    refine ⟨ev', g1, g2.trans h2, ?_, le_trans g4 h4⟩
    show ev'.available_tickets + eventTicketCount eid (runMints (applyMint s c) rest) =
      ev.available_tickets + eventTicketCount eid s
    omega

/-- A minimal event sold out after one mint: one ticket in total. -/
def cEvent : Event :=
  { event_id := "e2"
    name := "Tiny"
    total_tickets := 1
    available_tickets := 1
    price_sol := 1
    candy_machine_id := "cm2"
    is_active := true }

/-- Store holding only the minimal event, fresh. -/
def cStore : Store :=
  { events := [cEvent]
    tickets := []
    transactions := []
    nextTicketId := 0
    nextTxnId := 0 }

/-- Two serialized mints of distinct assets against the one-ticket event. -/
def cMints : List MintCall :=
  [{ eventId := "e2", nftMintAddress := "asset1", ownerWalletAddress := "w1",
     solanaTxSig := "s1", transactionId := none, qr := wQr, now := 1 },
   { eventId := "e2", nftMintAddress := "asset2", ownerWalletAddress := "w2",
     solanaTxSig := "s2", transactionId := none, qr := wQr, now := 2 }]

/-- C2 counterexample: starting from `available_tickets = total_tickets = 1`,
two serialized `recordMint` calls for distinct assets drive the counter to
`-1` — the decrement has no floor, so the claimed `0 ≤ available_tickets`
fails as soon as distinct-asset mints exceed `total_tickets`. -/
theorem available_tickets_counterexample :
    cEvent.available_tickets = cEvent.total_tickets ∧
    (findEventById (runMints cStore cMints) "e2").map Event.available_tickets =
      some (-1) :=
  ⟨by decide, by decide⟩

/-- C2 (amended): over any serialized sequence of `recordMint` calls,
`available_tickets` equals its starting value minus the number of Ticket rows
inserted for the event, so it never exceeds `total_tickets` (when it starts
below it) and stays nonnegative exactly while the inserted rows do not exceed
the starting count — there is no floor at zero. -/
theorem available_tickets_amended (l : List MintCall) (s : Store) (eid : String)
    (ev : Event) (hev : findEventById s eid = some ev)
    (hinit : ev.available_tickets ≤ ev.total_tickets) :
    ∃ ev', findEventById (runMints s l) eid = some ev' ∧
      ev'.total_tickets = ev.total_tickets ∧
      ev'.available_tickets =
        ev.available_tickets -
          (eventTicketCount eid (runMints s l) - eventTicketCount eid s) ∧
      ev'.available_tickets ≤ ev'.total_tickets ∧
      (eventTicketCount eid (runMints s l) - eventTicketCount eid s ≤
          ev.available_tickets → 0 ≤ ev'.available_tickets) := by
  obtain ⟨ev', h1, h2, h3, h4⟩ := runMints_counter l s hev
  exact ⟨ev', h1, h2, by omega, by omega, by omega⟩

/-- Witness for the amended C2 on the concrete overselling run. -/
theorem available_tickets_amended_witness :
    ∃ ev', findEventById (runMints cStore cMints) "e2" = some ev' ∧
      ev'.total_tickets = cEvent.total_tickets ∧
      ev'.available_tickets =
        cEvent.available_tickets -
          (eventTicketCount "e2" (runMints cStore cMints) -
            eventTicketCount "e2" cStore) ∧
      ev'.available_tickets ≤ ev'.total_tickets ∧
      (eventTicketCount "e2" (runMints cStore cMints) -
          eventTicketCount "e2" cStore ≤ cEvent.available_tickets →
        0 ≤ ev'.available_tickets) :=
  available_tickets_amended cMints cStore "e2" cEvent (by decide) (by decide)

/-- A ledger environment whose lookups all fail (the call throws). -/
def failingChain : ChainEnv := fun _ => .lookupFailed

/-- C9 counterexample: with an existing unused ticket and a ledger whose
lookup call fails, `verifyAndConsume` answers `Forbidden` (HTTP 403), not a
5xx `UpstreamUnavailable`: the catch-all inside `verifyTicketOwnershipOnChain`
converts the failure into a plain ownership mismatch. -/
theorem upstream_failure_counterexample :
    verifyAndConsume failingChain 9 wStore2 "mintA" none =
      (.ownershipMismatch, wStore2) ∧
    (verifyAndConsume failingChain 9 wStore2 "mintA" none).1.httpStatus = 403 :=
  ⟨by decide, by decide⟩

/-- C9 (amended): for an existing, unused ticket, when the live on-chain
ownership lookup fails the error is caught and reported as a failed ownership
check, so `verifyAndConsume` fails `Forbidden` (403) with no state change —
not success, but also not a 5xx. -/
theorem upstream_failure_amended (chain : ChainEnv) (now : Nat) (s : Store)
    (m : String) (a : Option String) (t : Ticket)
    (hm : m ≠ "") (hfind : findTicketByMint s m = some t) (hu : t.is_used = false)
    (haddr : addressToVerify a t ≠ "") (hchain : chain m = .lookupFailed) :
    verifyAndConsume chain now s m a = (.ownershipMismatch, s) ∧
    (verifyAndConsume chain now s m a).1.httpStatus = 403 := by
  have hv : verifyTicketOwnershipOnChain chain m (addressToVerify a t) = false := by
    unfold verifyTicketOwnershipOnChain
    rw [hchain]
  have h0 := verify_mismatch chain now s a hm hfind hu haddr hv
  exact ⟨h0, by rw [h0]; rfl⟩

/-- Witness for the amended C9 on the sample store. -/
theorem upstream_failure_amended_witness :
    verifyAndConsume failingChain 13 wStore2 "mintA" none =
      (.ownershipMismatch, wStore2) ∧
    (verifyAndConsume failingChain 13 wStore2 "mintA" none).1.httpStatus = 403 :=
  upstream_failure_amended failingChain 13 wStore2 "mintA" none wTicket
    (by decide) (by decide) (by decide) (by decide) (by decide)

end ETicket
